import Mathlib

/-
Verification development for the watcher repository.

Shallow embedding of the monitoring engine:
  - app/services/watcher_service.py  (scheduler, requests+Playwright detection path)
  - app/services/enhanced_monitor.py (EnhancedMonitor: retry loop, detection chain)
  - app/core/stealth_config.py       (configuration dataclasses and enums)
  - app/models.py                    (status variants, check-log record)

Numeric conventions: Python floats are embedded as rationals (the arithmetic the
claims exercise - multiplication by 1.3, min/max clamping, size thresholds -
is exact in this range); Python ints as Nat. Python strings are embedded as
Lean strings, with the string primitives the code uses (lower-casing, substring
containment, split, strip) re-implemented structurally over the character list
so that all of them evaluate by kernel reduction.

Side effects that no claim observes (logging, debug artifact dumps, sqlite
cookie persistence) are elided; observable effects (scheduled jobs, the
in-flight marker set, the committed check record, OCR/archive invocations,
backoff sleeps, browser launch/close) are made explicit in the returned values
and state records.
-/

namespace Watcher

/-! Python string primitives, embedded structurally over character lists. -/

/-- Python str.lower() over the characters of a string (ASCII case folding,
which is all the code relies on). -/
def lowerChars (l : List Char) : List Char := l.map Char.toLower

/-- Boolean list-prefix test (structural, kernel-reducible). -/
def isPrefixB : List Char → List Char → Bool
  | [], _ => true
  | _ :: _, [] => false
  | x :: xs, y :: ys => x = y && isPrefixB xs ys

/-- Boolean contiguous-sublist test against every suffix of the haystack. -/
def containsSub : List Char → List Char → Bool
  | _, [] => false
  | needle, c :: t2 => isPrefixB needle (c :: t2) || containsSub needle t2

/-- Python needle in haystack on lists of characters; the empty needle is
contained in every string. -/
def pyContains (needle hay : List Char) : Bool :=
  needle.isEmpty || containsSub needle hay

/-- Python phrase.lower() in content.lower(): the case-insensitive substring
test used at every substring-matching site of the code (watcher_service lines
202, 254; enhanced_monitor lines 646, 654, 673). -/
def pyIn (needle hay : String) : Bool :=
  pyContains (lowerChars needle.data) (lowerChars hay.data)

/-- Python str.split() separator class (whitespace). -/
def isPyWs (c : Char) : Bool := c.isWhitespace

/-- Accumulator pass for Python str.split() with no argument: whitespace runs
separate tokens and empty tokens are dropped. -/
def splitWsAux : List Char → List Char → List (List Char)
  | [], acc => if acc.isEmpty then [] else [acc.reverse]
  | c :: cs, acc =>
    if isPyWs c then
      if acc.isEmpty then splitWsAux cs [] else acc.reverse :: splitWsAux cs []
    else splitWsAux cs (c :: acc)

/-- Python content.split(): tokenization on whitespace runs. -/
def pySplitWs (s : List Char) : List (List Char) := splitWsAux s []

/-- Accumulator pass for Python s.split(","). -/
def splitCommaAux : List Char → List Char → List (List Char)
  | [], acc => [acc.reverse]
  | c :: cs, acc =>
    if c = ',' then acc.reverse :: splitCommaAux cs []
    else splitCommaAux cs (c :: acc)

/-- Python s.split(","): comma-separated fields, empties kept. -/
def pySplitComma (s : List Char) : List (List Char) := splitCommaAux s []

/-- Python str.strip(): whitespace removed from both ends. -/
def pyStrip (s : List Char) : List Char :=
  ((s.dropWhile isPyWs).reverse.dropWhile isPyWs).reverse

/-- Python str(exc)[:500] used for last_error truncation (watcher_service
line 271). -/
def pyTruncate500 (s : String) : String := String.mk (s.data.take 500)

/-! Data model: app/models.py. -/

/-- models.py StatusEnum (lines 8-13): the closed status variant. -/
inductive StatusEnum where
  | unknown
  | found
  | not_found
  | error
  | heavy
deriving DecidableEq, Repr

/-- models.py CheckLog (lines 35-46): one appended check record. The columns
email_sent and email_error default to false / none (lines 43-44); any later
value they hold must be written explicitly by the service code. -/
structure CheckLog where
  watcher_id : ℕ
  status : StatusEnum
  error_message : Option String
  email_sent : Bool
  email_error : Option String
deriving DecidableEq, Repr

/-- The fields of models.py Watcher (lines 16-32) that the scheduler logic
reads: id, the comma-separated recipient string, and the enabled flag. -/
structure WatcherRow where
  id : ℕ
  emails : List Char
  enabled : Bool
deriving DecidableEq, Repr

/-! watcher_service.py: JS rendering with the heavy ceiling and adaptive
timeout learning. -/

/-- watcher_service.py line 20. -/
def MIN_RENDER_SECONDS : ℚ := 30

/-- watcher_service.py line 21: the absolute ceiling. -/
def MAX_RENDER_SECONDS : ℚ := 180

/-- watcher_service.py RenderStats (lines 24-27). -/
structure RenderStats where
  load_duration : ℚ
  effective_timeout : ℚ
deriving DecidableEq, Repr

/-- Outcome of page.goto inside fetch_html_js (line 94): the navigation either
raises PlaywrightTimeout after the observed duration, raises some other
exception, or completes in load_duration seconds yielding the rendered html. -/
inductive NavOutcome where
  | timeout (duration : ℚ)
  | failed (msg : String)
  | loaded (load_duration : ℚ) (html : String)
deriving DecidableEq, Repr

/-- Result of fetch_html_js as seen by its caller: RenderTooHeavyError raised,
some other exception raised, or the html with its RenderStats; extra_wait is
the post-load wait the function actually performed (spent either polling for
the wait selector or sleeping, lines 110-119). -/
inductive FetchJsResult where
  | tooHeavy (duration : ℚ)
  | exn (msg : String)
  | ok (html : String) (stats : RenderStats) (extra_wait : ℚ)
deriving DecidableEq, Repr

/-- watcher_service.fetch_html_js (lines 55-137), value-level behavior. A
PlaywrightTimeout on navigation is re-raised as RenderTooHeavyError (lines
95-98); a completed navigation with load_duration at or above the ceiling
also raises RenderTooHeavyError (lines 100-101). Otherwise the suggested
per-target timeout is clamp(load_duration * 1.3, 30, 180) (line 104) and the
extra post-load wait is the largest of suggested-load, baseline-load and the
configured minimum settle wait, truncated so that load plus wait never
exceeds the 180 second ceiling (lines 105-109). -/
def fetch_html_js (baseline_timeout render_post_wait_seconds : ℚ)
    (nav : NavOutcome) : FetchJsResult :=
  match nav with
  | .timeout d => .tooHeavy d
  | .failed m => .exn m
  | .loaded load html =>
    if MAX_RENDER_SECONDS ≤ load then .tooHeavy load
    else
      let baseline := max MIN_RENDER_SECONDS (min MAX_RENDER_SECONDS baseline_timeout)
      let suggested := max MIN_RENDER_SECONDS (min MAX_RENDER_SECONDS (load * (13 / 10)))
      let extra1 := max 0 (suggested - load)
      let extra2 := max extra1 (max 0 (baseline - load))
      let min_extra := max 0 render_post_wait_seconds
      let extra3 := max extra2 min_extra
      let extra4 := min extra3 (max 0 (MAX_RENDER_SECONDS - min load MAX_RENDER_SECONDS))
      .ok html { load_duration := load, effective_timeout := suggested } extra4

/-- WatcherScheduler._record_render_timeout (lines 193-194): the per-target
learned timeout map is overwritten at the target id. -/
def _record_render_timeout (m : ℕ → Option ℚ) (watcher_id : ℕ) (timeout : ℚ) :
    ℕ → Option ℚ :=
  fun j => if j = watcher_id then some timeout else m j

/-- Outcome of the initial fetch_html call (requests path, lines 41-52):
either the html text or a raised exception. -/
inductive FetchOutcome where
  | ok (html : String)
  | error (msg : String)
deriving DecidableEq, Repr

/-- Observable outcome of WatcherScheduler._detect: the returned status and
error message, how many JS render attempts were performed, and the value (if
any) passed to _record_render_timeout. -/
structure DetectResult where
  status : StatusEnum
  error_message : Option String
  renders : ℕ
  recorded_timeout : Option ℚ
deriving DecidableEq, Repr

/-- Message built at watcher_service lines 247-250 (the interpolated numeric
durations are elided). -/
def heavy_message : String := "JS render exceeded 180s; marked as heavy"

/-- WatcherScheduler._detect (lines 196-271): requests fetch, substring test,
then - when render_js is enabled and the phrase was absent - one JS render.
RenderTooHeavyError is caught and mapped to status heavy immediately (lines
246-252); a successful render first records the suggested timeout (line 239)
and then decides found / not_found; any other exception is caught by the
outer handler and mapped to status error (lines 269-271). -/
def _detect (render_js : Bool) (baseline_timeout render_post_wait : ℚ)
    (phrase : String) (initial : FetchOutcome) (nav : NavOutcome) : DetectResult :=
  match initial with
  | .error msg =>
      { status := .error, error_message := some (pyTruncate500 msg),
        renders := 0, recorded_timeout := none }
  | .ok html =>
    if pyIn phrase html then
      { status := .found, error_message := none, renders := 0, recorded_timeout := none }
    else if render_js then
      match fetch_html_js baseline_timeout render_post_wait nav with
      | .tooHeavy _ =>
          { status := .heavy, error_message := some heavy_message,
            renders := 1, recorded_timeout := none }
      | .exn m =>
          { status := .error, error_message := some (pyTruncate500 m),
            renders := 1, recorded_timeout := none }
      | .ok html2 stats _ =>
          if pyIn phrase html2 then
            { status := .found, error_message := none,
              renders := 1, recorded_timeout := some stats.effective_timeout }
          else
            { status := .not_found, error_message := none,
              renders := 1, recorded_timeout := some stats.effective_timeout }
    else
      { status := .not_found, error_message := none, renders := 0, recorded_timeout := none }

/-! watcher_service.py: WatcherScheduler manual-trigger path and the
run_check persistence / notification flow. -/

/-- One job handed to the APScheduler instance by manual_check (lines
335-344): a one-off date-triggered run of run_check with force=True. -/
structure ManualJob where
  watcher_id : ℕ
  force : Bool
deriving DecidableEq, Repr

/-- The WatcherScheduler state the manual-trigger path touches: the
manual_checks_in_progress set (line 144) and the jobs handed to the
scheduler. -/
structure SchedulerState where
  manual_checks_in_progress : Finset ℕ
  jobs : List ManualJob
deriving DecidableEq

/-- WatcherScheduler.manual_check (lines 326-345): returns False leaving the
state untouched if a manual run for the id is already marked in-flight;
otherwise marks it in-flight, schedules an immediate one-off forced
run_check, and returns True. -/
def manual_check (s : SchedulerState) (watcher_id : ℕ) : Bool × SchedulerState :=
  if watcher_id ∈ s.manual_checks_in_progress then (false, s)
  else
    (true,
      { manual_checks_in_progress := insert watcher_id s.manual_checks_in_progress,
        jobs := s.jobs ++ [{ watcher_id := watcher_id, force := true }] })

/-- Exit paths of the run_check body (lines 274-320): skipped (target absent
or disabled and not forced), committed normally, aborted on StaleDataError,
or an exception propagating out of the body. -/
inductive RunCheckExit where
  | skipped
  | committed
  | staleAborted
  | raised (msg : String)
deriving DecidableEq, Repr

/-- The finally block of run_check (lines 321-324): when the run was forced
and the id is marked in-flight, the marker is discarded. -/
def run_check_finally (force : Bool) (watcher_id : ℕ) (s : SchedulerState) :
    SchedulerState :=
  if force ∧ watcher_id ∈ s.manual_checks_in_progress then
    { s with manual_checks_in_progress := s.manual_checks_in_progress.erase watcher_id }
  else s

/-- State of the in-flight marker set after run_check returns. The body of
run_check (lines 274-320) never touches manual_checks_in_progress on any of
its exit paths, and the finally block runs on all of them, so the resulting
state is run_check_finally applied to the pre-state whatever the exit was. -/
def run_check_marker_after (force : Bool) (watcher_id : ℕ) (_ex : RunCheckExit)
    (s : SchedulerState) : SchedulerState :=
  run_check_finally force watcher_id s

/-- Outcome of db.commit() at watcher_service line 299. -/
inductive CommitOutcome where
  | ok
  | staleData
  | otherError (msg : String)
deriving DecidableEq, Repr

/-- Outcome of send_email at watcher_service line 317. -/
inductive SendOutcome where
  | delivered
  | raised (msg : String)
deriving DecidableEq, Repr

/-- Observable outcome of the tail of run_check (lines 285-320): the check
record as committed, whether an email send was attempted and whether it was
delivered, whether the stale-lock path deregistered the job, and whether
run_check itself re-raised. -/
structure RunCheckResult where
  committed_log : Option CheckLog
  email_attempted : Bool
  email_delivered : Option Bool
  job_removed : Bool
  raised : Bool
deriving DecidableEq, Repr

/-- Python list comprehension at line 309:
[e.strip() for e in watcher.emails.split(",") if e.strip()]. -/
def parse_emails (emails : List Char) : List (List Char) :=
  ((pySplitComma emails).map pyStrip).filter (fun e => !e.isEmpty)

/-- Tail of WatcherScheduler.run_check after _detect returned (lines 285-320):
the CheckLog is constructed with the model defaults email_sent=False and
email_error=None (models.py lines 43-44) and committed; on StaleDataError the
execution aborts and deregisters the job; only when the status is found and
the recipient string is non-empty (and parses to at least one address) is
send_email called, and an exception from it is caught and logged - the
committed record is never written again on any of these paths. -/
def run_check_after_detect (w : WatcherRow) (status : StatusEnum)
    (error_message : Option String) (commit : CommitOutcome)
    (send : SendOutcome) : RunCheckResult :=
  let log_entry : CheckLog :=
    { watcher_id := w.id, status := status, error_message := error_message,
      email_sent := false, email_error := none }
  match commit with
  | .staleData =>
      { committed_log := none, email_attempted := false, email_delivered := none,
        job_removed := true, raised := false }
  | .otherError _ =>
      { committed_log := none, email_attempted := false, email_delivered := none,
        job_removed := false, raised := true }
  | .ok =>
    if status = StatusEnum.found ∧ ¬w.emails.isEmpty then
      if (parse_emails w.emails).isEmpty then
        { committed_log := some log_entry, email_attempted := false,
          email_delivered := none, job_removed := false, raised := false }
      else
        match send with
        | .delivered =>
            { committed_log := some log_entry, email_attempted := true,
              email_delivered := some true, job_removed := false, raised := false }
        | .raised _ =>
            { committed_log := some log_entry, email_attempted := true,
              email_delivered := some false, job_removed := false, raised := false }
    else
      { committed_log := some log_entry, email_attempted := false,
        email_delivered := none, job_removed := false, raised := false }

/-! enhanced_monitor.py with its configuration from stealth_config.py. -/

/-- stealth_config.RetryStrategy (lines 23-28): a plain Python Enum. Unlike
StatusEnum in models.py, which is declared as class StatusEnum(str, enum.Enum),
RetryStrategy does not mix in str. -/
inductive RetryStrategy where
  | none
  | exponential_backoff
  | linear
  | size_based
deriving DecidableEq, Repr

/-- Python equality between a member of the plain Enum RetryStrategy and a str
value. A plain-Enum member (no str mixin) is equal only to itself, never to a
string, so this test is False for every member and every string. Every
assignment of config.resilience.retry_strategy in the repository stores an
enum member: the dataclass default RetryStrategy.EXPONENTIAL_BACKOFF
(stealth_config line 128) and the parser RetryStrategy(...) (line 223). -/
def pyEnumEqStr (_s : RetryStrategy) (_t : String) : Bool := false

/-- stealth_config.ResilienceConfig (lines 124-136): the fields
enhanced_monitor reads. -/
structure ResilienceConfig where
  max_retries : ℕ
  retry_strategy : RetryStrategy
  backoff_base : ℚ
  backoff_max : ℚ
  size_threshold_percentage : ℚ
  ocr_enabled : Bool
  wayback_enabled : Bool
  fuzzy_match_enabled : Bool
  fuzzy_match_threshold : ℚ
deriving DecidableEq, Repr

/-- The dataclass defaults of ResilienceConfig (stealth_config lines 127-136). -/
def defaultResilience : ResilienceConfig :=
  { max_retries := 3, retry_strategy := .exponential_backoff,
    backoff_base := 1, backoff_max := 5, size_threshold_percentage := 1 / 2,
    ocr_enabled := true, wayback_enabled := true,
    fuzzy_match_enabled := true, fuzzy_match_threshold := 85 }

/-- EnhancedMonitor.calculate_exponential_backoff (lines 340-350). The guard
at line 342 compares the enum-valued retry_strategy against the string
literal "exponential_backoff" with Python !=; per pyEnumEqStr that comparison
never holds, so the early return 0.0 is taken for every configuration and the
min(base * 2^(attempt-1), max) branch below it is unreachable. -/
def calculate_exponential_backoff (cfg : ResilienceConfig) (attempt : ℕ) : ℚ :=
  if !pyEnumEqStr cfg.retry_strategy "exponential_backoff" then 0
  else min (cfg.backoff_base * 2 ^ (attempt - 1)) cfg.backoff_max

/-- Levenshtein.distance (the C library call at enhanced_monitor line 414):
textbook edit distance with unit-cost insertions, deletions and
substitutions, written with a fuel argument so the recursion is structural;
fuel a.length + b.length always suffices because every recursive call
shortens the combined length. -/
def levFuel : ℕ → List Char → List Char → ℕ
  | _, [], ys => ys.length
  | _, xs, [] => xs.length
  | 0, xs, ys => xs.length + ys.length
  | (f + 1), x :: xs, y :: ys =>
    if x = y then levFuel f xs ys
    else 1 + min (levFuel f xs (y :: ys)) (min (levFuel f (x :: xs) ys) (levFuel f xs ys))

/-- Edit distance between two character lists. -/
def lev_distance (a b : List Char) : ℕ := levFuel (a.length + b.length) a b

/-- One pair comparison inside fuzzy_match_content (lines 414-416): distance
over the lower-cased tokens, max_len over the original token lengths,
similarity = 100 * (1 - distance / max_len), or 0 when max_len is 0. -/
def token_similarity (word target_word : List Char) : ℚ :=
  let d := lev_distance (lowerChars word) (lowerChars target_word)
  let max_len := max word.length target_word.length
  if 0 < max_len then 100 * (1 - (d : ℚ) / (max_len : ℚ)) else 0

/-- EnhancedMonitor.fuzzy_match_content (lines 402-425): disabled means no
match; otherwise both strings are tokenized with split() and the function
returns True exactly when some content token against some phrase token
reaches the configured similarity threshold. -/
def fuzzy_match_content (enabled : Bool) (threshold : ℚ)
    (content target_phrase : String) : Bool :=
  if !enabled then false
  else
    (pySplitWs content.data).any fun word =>
      (pySplitWs target_phrase.data).any fun target_word =>
        decide (threshold ≤ token_similarity word target_word)

/-- EnhancedMonitor.should_retry_based_on_size (lines 427-442): no previous
content (None or empty, both falsy) means no size-based retry; otherwise the
ratio of current to previous length is compared against the threshold. -/
def should_retry_based_on_size (threshold : ℚ) (current : String)
    (previous : Option String) : Bool :=
  match previous with
  | .none => false
  | .some prev =>
    if prev.data.isEmpty then false
    else
      let size_quotient : ℚ :=
        if 0 < prev.data.length then (current.data.length : ℚ) / (prev.data.length : ℚ)
        else 1
      decide (size_quotient < threshold)

/-- Observable outcome of the detection chain of monitor_url (lines 644-687):
whether the phrase was matched, the stage that matched (1 substring, 2 fuzzy,
3 OCR, 4 wayback, 0 none), and whether the OCR and wayback stages were
invoked at all. -/
structure ChainResult where
  found : Bool
  stage : ℕ
  ocr_invoked : Bool
  wayback_invoked : Bool
deriving DecidableEq, Repr

/-- The detection chain of monitor_url (lines 644-687): case-insensitive
substring containment first; each fallback runs only while the phrase is
still unmatched and its stage is enabled. ocr_text is what OCR recognized
when invoked (line 652; empty when OCR produced nothing or failed), and
wayback is the archived content when the lookup was invoked and found a
snapshot (line 671; none when absent or failed). -/
def detection_chain (cfg : ResilienceConfig) (content target_phrase : String)
    (ocr_text : String) (wayback : Option String) : ChainResult :=
  if pyIn target_phrase content then
    { found := true, stage := 1, ocr_invoked := false, wayback_invoked := false }
  else if cfg.fuzzy_match_enabled &&
      fuzzy_match_content cfg.fuzzy_match_enabled cfg.fuzzy_match_threshold
        content target_phrase then
    { found := true, stage := 2, ocr_invoked := false, wayback_invoked := false }
  else if cfg.ocr_enabled && (!ocr_text.data.isEmpty && pyIn target_phrase ocr_text) then
    { found := true, stage := 3, ocr_invoked := true, wayback_invoked := false }
  else
    let wayback_hit :=
      cfg.wayback_enabled &&
        (match wayback with
         | .some t => pyIn target_phrase t
         | .none => false)
    { found := wayback_hit, stage := if wayback_hit then 4 else 0,
      ocr_invoked := cfg.ocr_enabled, wayback_invoked := cfg.wayback_enabled }

/-- Externally-determined events of one attempt of monitor_url: either the
attempt reaches content extraction with the given rendered content, OCR
recognition and wayback lookup results, or it raises an unhandled exception
somewhere in the attempt body (caught at line 727). -/
inductive AttemptOutcome where
  | content (rendered : String) (ocr_text : String) (wayback : Option String)
  | exn (msg : String)

/-- Mutable state of the monitor_url attempt loop (lines 485-491 and the
metrics counters the claims observe). -/
structure LoopState where
  attempt : ℕ
  last_content : Option String
  ocr_invocations : ℕ
  wayback_invocations : ℕ
  sleeps : List ℚ
deriving Repr

/-- Final outcome of monitor_url: the found flag, metrics final_status, the
loop attempt counter at exit, the number of OCR / wayback invocations, and
the backoff sleeps performed between attempts. -/
structure MonitorResult where
  found : Bool
  final_status : String
  attempts : ℕ
  ocr_invocations : ℕ
  wayback_invocations : ℕ
  sleeps : List ℚ
deriving Repr

/-- Python truthiness of last_content at line 710 (None and the empty string
are falsy). -/
def pyTruthyOpt : Option String → Bool
  | .none => false
  | .some s => !s.data.isEmpty

/-- One iteration of the monitor_url while body (lines 488-740), entered with
the attempt counter already incremented (line 489). An exception returns the
failed result when the counter has reached max_retries (lines 738-740) and
otherwise continues the loop; extracted content runs the detection chain,
returns success on a match (lines 697-707), continues without backoff on the
size-based retry path (lines 710-713), and otherwise sleeps the computed
backoff when attempt < max_retries and the delay is positive (lines 721-725)
before the next iteration. -/
def monitor_body (cfg : ResilienceConfig) (target_phrase : String)
    (outcome : AttemptOutcome) (st : LoopState) : MonitorResult ⊕ LoopState :=
  match outcome with
  | .exn _ =>
      if cfg.max_retries ≤ st.attempt then
        .inl { found := false, final_status := "failed", attempts := st.attempt,
               ocr_invocations := st.ocr_invocations,
               wayback_invocations := st.wayback_invocations, sleeps := st.sleeps }
      else .inr st
  | .content c ocr_text wayback =>
      let ch := detection_chain cfg c target_phrase ocr_text wayback
      let ocr2 := st.ocr_invocations + (if ch.ocr_invoked then 1 else 0)
      let wb2 := st.wayback_invocations + (if ch.wayback_invoked then 1 else 0)
      if ch.found then
        .inl { found := true, final_status := "success", attempts := st.attempt,
               ocr_invocations := ocr2, wayback_invocations := wb2, sleeps := st.sleeps }
      else if pyTruthyOpt st.last_content &&
          should_retry_based_on_size cfg.size_threshold_percentage c st.last_content then
        .inr { st with
                 last_content := some c, ocr_invocations := ocr2,
                 wayback_invocations := wb2 }
      else
        let sleeps2 :=
          if st.attempt < cfg.max_retries then
            let d := calculate_exponential_backoff cfg st.attempt
            if 0 < d then st.sleeps ++ [d] else st.sleeps
          else st.sleeps
        .inr { st with
                 last_content := some c, ocr_invocations := ocr2,
                 wayback_invocations := wb2, sleeps := sleeps2 }

/-- The monitor_url while loop (line 488: while attempt <= max_retries with
attempt incremented on entry), driven by fuel equal to the remaining loop
iterations; fuel 0 is the loop exit, returning the not_found result of lines
742-746. -/
def monitorGo (cfg : ResilienceConfig) (target_phrase : String)
    (oracle : ℕ → AttemptOutcome) : ℕ → LoopState → MonitorResult
  | 0, st =>
      { found := false, final_status := "not_found", attempts := st.attempt,
        ocr_invocations := st.ocr_invocations,
        wayback_invocations := st.wayback_invocations, sleeps := st.sleeps }
  | (fuel + 1), st =>
      let st1 : LoopState := { st with attempt := st.attempt + 1 }
      match monitor_body cfg target_phrase (oracle st1.attempt) st1 with
      | .inl r => r
      | .inr st2 => monitorGo cfg target_phrase oracle fuel st2

/-- EnhancedMonitor.monitor_url (lines 444-746), attempt-loop behavior: the
loop guard attempt <= max_retries with the counter starting at 0 admits at
most max_retries + 1 iterations. -/
def monitor_url (cfg : ResilienceConfig) (target_phrase : String)
    (oracle : ℕ → AttemptOutcome) : MonitorResult :=
  monitorGo cfg target_phrase oracle (cfg.max_retries + 1)
    { attempt := 0, last_content := none, ocr_invocations := 0,
      wayback_invocations := 0, sleeps := [] }

/-! Browser resource lifecycle: both render sites wrap the whole body that
follows browser launch in try ... finally browser.close()
(watcher_service lines 76 and 136-137, enhanced_monitor lines 514 and
717-718). The bodies are abstracted by their exit paths; the try/finally
combinator makes the Python guarantee explicit: the finally clause runs on
every exit, normal or exceptional, and an exception still propagates. -/

/-- Exit of a Python block: a normal value or a propagating exception. -/
inductive PyExit (α : Type) where
  | ret (a : α)
  | exn (msg : String)
deriving DecidableEq, Repr

/-- Count of live browser processes. -/
structure BrowserState where
  open_browsers : ℕ
deriving DecidableEq, Repr

/-- p.chromium.launch(...): one more live browser process. -/
def launch (s : BrowserState) : BrowserState :=
  { open_browsers := s.open_browsers + 1 }

/-- browser.close(): one fewer live browser process. -/
def closeBrowser (s : BrowserState) : BrowserState :=
  { open_browsers := s.open_browsers - 1 }

/-- Python try/finally over an explicit state: the body runs first; the
finally action then updates the state whatever the body exit was; the exit
(including a propagating exception) is preserved. -/
def tryFinally {α σ : Type} (body : σ → PyExit α × σ) (cleanup : σ → σ)
    (s : σ) : PyExit α × σ :=
  let r := body s
  (r.1, cleanup r.2)

/-- Exit paths of the try body of fetch_html_js (everything between the
launch at line 69 and the finally at line 136): a normal return, the
RenderTooHeavyError raised on a navigation timeout (line 98), the
RenderTooHeavyError raised on a too-slow load (line 101), or any other
exception raised during context setup, navigation, waiting, screenshotting
or extraction. -/
inductive RenderPath where
  | ok (html : String) (stats : RenderStats) (extra_wait : ℚ)
  | navTimeoutHeavy (duration : ℚ)
  | tooSlowHeavy (duration : ℚ)
  | exnDuring (stage msg : String)
deriving DecidableEq, Repr

/-- The exit each RenderPath produces for the try body of fetch_html_js. -/
def renderBodyExit : RenderPath → PyExit FetchJsResult
  | .ok h st w => .ret (.ok h st w)
  | .navTimeoutHeavy _ => .exn "RenderTooHeavyError"
  | .tooSlowHeavy _ => .exn "RenderTooHeavyError"
  | .exnDuring _ m => .exn m

/-- Browser lifecycle of one fetch_html_js call (watcher_service lines
68-137): launch, then the body under try with browser.close() in the
finally. -/
def fetch_html_js_lifecycle (p : RenderPath) (s : BrowserState) :
    PyExit FetchJsResult × BrowserState :=
  tryFinally (fun s2 => (renderBodyExit p, s2)) closeBrowser (launch s)

/-- Exit paths of the try body of one monitor_url attempt (everything between
the launch at line 499 and the finally at line 717): an early return on a
match (line 707), a continue on the size-based retry path (line 713), a
normal fall-through to the next iteration, or an exception raised during
stealth setup, navigation (a navigation timeout is caught at line 551 and is
not an exit by itself), interaction, extraction or detection. -/
inductive AttemptPath where
  | returnFound
  | sizeRetryContinue
  | fallthrough
  | exnDuring (stage msg : String)
deriving DecidableEq, Repr

/-- The exit each AttemptPath produces for the try body of a monitor_url
attempt (the Bool is the found flag of an early return). -/
def attemptBodyExit : AttemptPath → PyExit Bool
  | .returnFound => .ret true
  | .sizeRetryContinue => .ret false
  | .fallthrough => .ret false
  | .exnDuring _ m => .exn m

/-- Browser lifecycle of one monitor_url attempt (enhanced_monitor lines
497-718): launch, then the body under try with browser.close() in the
finally. -/
def monitor_attempt_lifecycle (p : AttemptPath) (s : BrowserState) :
    PyExit Bool × BrowserState :=
  tryFinally (fun s2 => (attemptBodyExit p, s2)) closeBrowser (launch s)

/-! Shared helper lemmas. -/

/-- The guard of calculate_exponential_backoff never passes (pyEnumEqStr is
False for every member), so the function returns 0 for every configuration
and attempt. -/
theorem calc_backoff_eq_zero (cfg : ResilienceConfig) (k : ℕ) :
    calculate_exponential_backoff cfg k = 0 := by
  simp [calculate_exponential_backoff, pyEnumEqStr]

/-- With fuzzy, OCR and wayback all disabled and the phrase absent from the
content, the detection chain reports no match, stage 0, and no OCR or
wayback invocation. -/
theorem detection_chain_all_disabled (cfg : ResilienceConfig)
    (c phrase o : String) (w : Option String)
    (hf : cfg.fuzzy_match_enabled = false) (ho : cfg.ocr_enabled = false)
    (hw : cfg.wayback_enabled = false) (hmiss : pyIn phrase c = false) :
    detection_chain cfg c phrase o w =
      { found := false, stage := 0, ocr_invoked := false, wayback_invoked := false } := by
  simp [detection_chain, hmiss, hf, ho, hw]

/-! Claim theorems. -/

/-- C1: when the JS render exceeds the 180 second absolute ceiling (either a
navigation timeout or a completed navigation with load duration at the
ceiling or beyond), the check is classified heavy and terminates at once: in
either shape the returned status is heavy with exactly one render performed
and no learned-timeout update, and on every input whatsoever _detect performs
at most one render attempt - there is no retry budget to consume. -/
theorem heavy_render_aborts_check (baseline post d : ℚ)
    (phrase html html2 : String)
    (hmiss : pyIn phrase html = false) (hd : MAX_RENDER_SECONDS ≤ d) :
    (_detect true baseline post phrase (.ok html) (.loaded d html2) =
      { status := .heavy, error_message := some heavy_message, renders := 1,
        recorded_timeout := none }) ∧
    (_detect true baseline post phrase (.ok html) (.timeout d) =
      { status := .heavy, error_message := some heavy_message, renders := 1,
        recorded_timeout := none }) ∧
    (∀ (render_js : Bool) (initial : FetchOutcome) (nav : NavOutcome),
      (_detect render_js baseline post phrase initial nav).renders ≤ 1) := by
  refine ⟨?_, ?_, ?_⟩
  · simp [_detect, hmiss, fetch_html_js, hd]
  · simp [_detect, hmiss, fetch_html_js]
  · intro render_js initial nav
    cases initial with
    | error m => simp [_detect]
    | ok h =>
      by_cases hin : pyIn phrase h
      · simp [_detect, hin]
      · cases render_js with
        | false => simp [_detect, hin]
        | true =>
          cases hfr : fetch_html_js baseline post nav with
          | tooHeavy d2 => simp [_detect, hin, hfr]
          | exn m => simp [_detect, hin, hfr]
          | ok h2 stats w2 =>
            by_cases hin2 : pyIn phrase h2 <;> simp [_detect, hin, hfr, hin2]

/-- C1 witness: a render observed at 200 seconds against the 180 second
ceiling yields heavy with a single render and no timeout update. -/
theorem heavy_render_aborts_check_witness :
    pyIn "deluxe" "<html>initial</html>" = false ∧
    MAX_RENDER_SECONDS ≤ (200 : ℚ) ∧
    _detect true 20 3 "deluxe" (.ok "<html>initial</html>") (.loaded 200 "late") =
      { status := .heavy, error_message := some heavy_message, renders := 1,
        recorded_timeout := none } :=
  ⟨by decide, by norm_num [MAX_RENDER_SECONDS],
   (heavy_render_aborts_check 20 3 200 "deluxe" "<html>initial</html>" "late"
     (by decide) (by norm_num [MAX_RENDER_SECONDS])).1⟩

/-- C6: both render sites place browser.close() in a finally clause directly
under the launch, so on every exit path of the attempt body - normal return,
the heavy-render abort, a navigation timeout and any other exception - the
launched browser is released: the live-browser count after the call equals
the count before it. -/
theorem browser_released_on_every_exit :
    (∀ (p : RenderPath) (s : BrowserState),
      (fetch_html_js_lifecycle p s).2.open_browsers = s.open_browsers) ∧
    (∀ (p : AttemptPath) (s : BrowserState),
      (monitor_attempt_lifecycle p s).2.open_browsers = s.open_browsers) := by
  constructor <;> intro p s <;>
    simp [fetch_html_js_lifecycle, monitor_attempt_lifecycle, tryFinally,
      launch, closeBrowser]

/-- C7: under the default configuration, whose retry strategy is
RetryStrategy.EXPONENTIAL_BACKOFF, the computed backoff is 0 for every
attempt - the enum-vs-string guard at line 342 never passes - whereas the
formula min(base * 2^(k-1), cap) documented in the function body gives 1 at
attempt 1 with base 1 and cap 5, so the exponential backoff the claim (and
the code comment at line 348) describes is never produced. -/
theorem exponential_backoff_guard_never_fires :
    (∀ attempt : ℕ, calculate_exponential_backoff defaultResilience attempt = 0) ∧
    min (defaultResilience.backoff_base * 2 ^ (1 - 1)) defaultResilience.backoff_max = 1 ∧
    calculate_exponential_backoff defaultResilience 1 ≠
      min (defaultResilience.backoff_base * 2 ^ (1 - 1)) defaultResilience.backoff_max := by
  refine ⟨fun a => calc_backoff_eq_zero _ _, ?_, ?_⟩
  · norm_num [defaultResilience]
  · rw [calc_backoff_eq_zero]
    norm_num [defaultResilience]

/-- C9: a phrase contained verbatim (case-insensitively) in the rendered
content is matched at stage 1 of the detection chain, and the OCR and
wayback stages are not invoked, whatever their enablement flags say. -/
theorem verbatim_match_short_circuits (cfg : ResilienceConfig)
    (content target_phrase ocr_text : String) (wayback : Option String)
    (h : pyIn target_phrase content = true) :
    detection_chain cfg content target_phrase ocr_text wayback =
      { found := true, stage := 1, ocr_invoked := false, wayback_invoked := false } := by
  simp [detection_chain, h]

/-- C9 witness: a concrete verbatim phrase under the default configuration,
in which both OCR and wayback are enabled. -/
theorem verbatim_match_short_circuits_witness :
    pyIn "deluxe quadruple" "Rooms: Deluxe Quadruple available" = true ∧
    defaultResilience.ocr_enabled = true ∧
    defaultResilience.wayback_enabled = true ∧
    detection_chain defaultResilience "Rooms: Deluxe Quadruple available"
        "deluxe quadruple" "" none =
      { found := true, stage := 1, ocr_invoked := false, wayback_invoked := false } :=
  ⟨by decide, rfl, rfl,
   verbatim_match_short_circuits defaultResilience
     "Rooms: Deluxe Quadruple available" "deluxe quadruple" "" none (by decide)⟩

/-- C3: a manual trigger for an id already marked in-flight returns false and
leaves the state untouched; otherwise it marks the id in-flight, appends one
immediate forced one-off job, and returns true; and after run_check returns -
whatever its exit path was - the finally block has cleared the marker, so a
subsequent manual trigger for that id returns true. -/
theorem manual_trigger_guard (s : SchedulerState) (id : ℕ) :
    (id ∈ s.manual_checks_in_progress → manual_check s id = (false, s)) ∧
    (id ∉ s.manual_checks_in_progress →
      manual_check s id =
        (true,
          { manual_checks_in_progress := insert id s.manual_checks_in_progress,
            jobs := s.jobs ++ [{ watcher_id := id, force := true }] })) ∧
    (∀ (ex : RunCheckExit) (s2 : SchedulerState),
      id ∉ (run_check_marker_after true id ex s2).manual_checks_in_progress ∧
      (manual_check (run_check_marker_after true id ex s2) id).1 = true) := by
  refine ⟨fun h => by simp [manual_check, h], fun h => by simp [manual_check, h], ?_⟩
  intro ex s2
  have hnot : id ∉ (run_check_marker_after true id ex s2).manual_checks_in_progress := by
    by_cases hmem : id ∈ s2.manual_checks_in_progress
    · simp [run_check_marker_after, run_check_finally, hmem]
    · simp [run_check_marker_after, run_check_finally, hmem]
  exact ⟨hnot, by simp [manual_check, hnot]⟩

/-- C3 witness: duplicate suppression at id 7 (in-flight: returns false and
changes nothing; idle: returns true), and after a forced run that raised, a
new manual trigger is accepted again. -/
theorem manual_trigger_guard_witness :
    (7 : ℕ) ∈ (({7} : Finset ℕ)) ∧
    manual_check ⟨{7}, []⟩ 7 = (false, ⟨{7}, []⟩) ∧
    (7 : ℕ) ∉ (∅ : Finset ℕ) ∧
    (manual_check ⟨∅, []⟩ 7).1 = true ∧
    (manual_check (run_check_marker_after true 7 (.raised "boom") ⟨{7}, []⟩) 7).1 = true :=
  ⟨by decide,
   (manual_trigger_guard ⟨{7}, []⟩ 7).1 (by decide),
   by decide,
   by rw [(manual_trigger_guard ⟨∅, []⟩ 7).2.1 (by decide)],
   ((manual_trigger_guard ⟨{7}, []⟩ 7).2.2 (.raised "boom") ⟨{7}, []⟩).2⟩

/-- A sample watcher row with one configured recipient. -/
def exampleWatcher : WatcherRow :=
  { id := 1, emails := "a@b.com".data, enabled := true }

/-- C4: the notification outcome is never recorded onto the check record. At
a found status with a configured recipient and a successful delivery the
code does attempt and deliver the email, yet the committed CheckLog still
carries the model defaults email_sent = false and email_error = none; and on
every input whatsoever the committed record keeps those defaults - run_check
contains no write of either column (the add_email_tracking migration and
models.py lines 43-44 provide them for exactly this purpose). -/
theorem notification_outcome_not_recorded :
    (run_check_after_detect exampleWatcher .found none .ok .delivered).email_attempted
      = true ∧
    (run_check_after_detect exampleWatcher .found none .ok .delivered).email_delivered
      = some true ∧
    (run_check_after_detect exampleWatcher .found none .ok .delivered).committed_log =
      some { watcher_id := 1, status := .found, error_message := none,
             email_sent := false, email_error := none } ∧
    (∀ (w : WatcherRow) (status : StatusEnum) (err : Option String)
       (commit : CommitOutcome) (send : SendOutcome) (l : CheckLog),
      (run_check_after_detect w status err commit send).committed_log = some l →
      l.email_sent = false ∧ l.email_error = none) := by
  refine ⟨by decide, by decide, by decide, ?_⟩
  intro w status err commit send l hl
  cases commit with
  | staleData => simp [run_check_after_detect] at hl
  | otherError m => simp [run_check_after_detect] at hl
  | ok =>
    cases send with
    | delivered =>
      simp only [run_check_after_detect] at hl
      split at hl <;> [split at hl; skip] <;>
        · rw [Option.some.injEq] at hl
          rw [← hl]
          exact ⟨rfl, rfl⟩
    | raised m =>
      simp only [run_check_after_detect] at hl
      split at hl <;> [split at hl; skip] <;>
        · rw [Option.some.injEq] at hl
          rw [← hl]
          exact ⟨rfl, rfl⟩

/-- C4 witness: the universal part of the theorem applied at the concrete
successful-delivery run. -/
theorem notification_outcome_not_recorded_witness :
    (run_check_after_detect exampleWatcher .found none .ok .delivered).committed_log =
      some { watcher_id := 1, status := .found, error_message := none,
             email_sent := false, email_error := none } ∧
    ({ watcher_id := 1, status := .found, error_message := none,
       email_sent := false, email_error := none } : CheckLog).email_sent = false :=
  ⟨notification_outcome_not_recorded.2.2.1,
   (notification_outcome_not_recorded.2.2.2 exampleWatcher .found none .ok .delivered
     { watcher_id := 1, status := .found, error_message := none,
       email_sent := false, email_error := none }
     notification_outcome_not_recorded.2.2.1).1⟩

/-- C5 counterexample: a successful render with observed load 178 seconds, a
configured minimum settle wait of 3 seconds and baseline 20 performs an
actual post-load wait of only 2 seconds - the wait is truncated at the 180
second ceiling, so the fixed minimum settle wait is not always added on top. -/
theorem settle_wait_capped_counterexample :
    fetch_html_js 20 3 (.loaded 178 "late-content") =
      .ok "late-content" { load_duration := 178, effective_timeout := 180 } 2 ∧
    ((2 : ℚ) < 3) := by
  constructor
  · norm_num [fetch_html_js, MIN_RENDER_SECONDS, MAX_RENDER_SECONDS]
  · norm_num

/-- C5 (amended): after every successful (non-heavy) render the learned
per-target timeout is overwritten with clamp(load * 1.3, 30, 180) - stored
under the target id, replacing any previous value - and a post-load settle
wait of at least the configured minimum is added on top, except that the
wait is truncated so that load plus wait never exceeds the 180 second
ceiling. -/
theorem adaptive_timeout_amended (baseline post load : ℚ) (html : String)
    (h1 : load < MAX_RENDER_SECONDS) :
    (∃ w, fetch_html_js baseline post (.loaded load html) =
        .ok html
          { load_duration := load,
            effective_timeout :=
              max MIN_RENDER_SECONDS (min MAX_RENDER_SECONDS (load * (13 / 10))) } w ∧
      min post (MAX_RENDER_SECONDS - load) ≤ w) ∧
    (∀ (m : ℕ → Option ℚ) (id : ℕ) (t : ℚ),
      _record_render_timeout m id t id = some t) := by
  constructor
  · have hn : ¬ MAX_RENDER_SECONDS ≤ load := not_le.mpr h1
    refine ⟨min
        (max (max (max 0 (max MIN_RENDER_SECONDS (min MAX_RENDER_SECONDS (load * (13 / 10))) - load))
          (max 0 (max MIN_RENDER_SECONDS (min MAX_RENDER_SECONDS baseline) - load)))
          (max 0 post))
        (max 0 (MAX_RENDER_SECONDS - min load MAX_RENDER_SECONDS)), ?_, ?_⟩
    · simp only [fetch_html_js, if_neg hn]
    · have hcap : max 0 (MAX_RENDER_SECONDS - min load MAX_RENDER_SECONDS) =
          MAX_RENDER_SECONDS - load := by
        rw [min_eq_left h1.le]
        exact max_eq_right (by linarith)
      rw [hcap]
      exact min_le_min (le_trans (le_max_right 0 post) (le_max_right _ _)) le_rfl
  · intro m id t
    simp [_record_render_timeout]

/-- C5 witness: an observed load of 150 seconds stores the learned timeout
clamp(150 * 1.3, 30, 180) = 180, with the full 3 second settle wait intact. -/
theorem adaptive_timeout_amended_witness :
    (150 : ℚ) < MAX_RENDER_SECONDS ∧
    (∃ w, fetch_html_js 20 3 (.loaded 150 "content") =
        .ok "content"
          { load_duration := 150,
            effective_timeout :=
              max MIN_RENDER_SECONDS (min MAX_RENDER_SECONDS (150 * (13 / 10))) } w ∧
      min (3 : ℚ) (MAX_RENDER_SECONDS - 150) ≤ w) ∧
    max MIN_RENDER_SECONDS (min MAX_RENDER_SECONDS ((150 : ℚ) * (13 / 10))) = 180 :=
  ⟨by norm_num [MAX_RENDER_SECONDS],
   (adaptive_timeout_amended 20 3 150 "content"
     (by norm_num [MAX_RENDER_SECONDS])).1,
   by norm_num [MIN_RENDER_SECONDS, MAX_RENDER_SECONDS]⟩

/-- C8: with fuzzy matching enabled, fuzzy_match_content reports a match
exactly when some content token against some phrase token reaches the
threshold under similarity = 100 * (1 - distance / max_len); for the pair
color / colour the distance is 1 over max length 6, so the similarity is
250/3 (about 83.3): no match at threshold 85, a match at threshold 80. -/
theorem fuzzy_similarity_spec (threshold : ℚ) (content target_phrase : String) :
    (fuzzy_match_content true threshold content target_phrase = true ↔
      ∃ word ∈ pySplitWs content.data, ∃ target_word ∈ pySplitWs target_phrase.data,
        threshold ≤ token_similarity word target_word) ∧
    lev_distance (lowerChars "color".data) (lowerChars "colour".data) = 1 ∧
    token_similarity "color".data "colour".data = 250 / 3 ∧
    fuzzy_match_content true 85 "color" "colour" = false ∧
    fuzzy_match_content true 80 "color" "colour" = true := by
  have hd : lev_distance (lowerChars "color".data) (lowerChars "colour".data) = 1 := by
    decide
  have h5 : ("color".data).length = 5 := by decide
  have h6 : ("colour".data).length = 6 := by decide
  have hsim : token_similarity "color".data "colour".data = 250 / 3 := by
    simp only [token_similarity, hd, h5, h6]
    norm_num
  have hsp1 : pySplitWs "color".data = ["color".data] := by decide
  have hsp2 : pySplitWs "colour".data = ["colour".data] := by decide
  refine ⟨?_, hd, hsim, ?_, ?_⟩
  · simp [fuzzy_match_content, List.any_eq_true, decide_eq_true_eq]
  · simp only [fuzzy_match_content, Bool.not_true, Bool.false_eq_true, if_false,
      hsp1, hsp2, List.any_cons, List.any_nil, Bool.or_false, hsim]
    exact decide_eq_false (by norm_num)
  · simp only [fuzzy_match_content, Bool.not_true, Bool.false_eq_true, if_false,
      hsp1, hsp2, List.any_cons, List.any_nil, Bool.or_false, hsim]
    exact decide_eq_true (by norm_num)

/-- The attempt loop never appends a backoff sleep: the computed delay is 0
on every iteration, so the guard 0 < delay never passes. -/
theorem monitorGo_sleeps_unchanged (cfg : ResilienceConfig) (phrase : String)
    (oracle : ℕ → AttemptOutcome) :
    ∀ (fuel : ℕ) (st : LoopState),
      (monitorGo cfg phrase oracle fuel st).sleeps = st.sleeps := by
  intro fuel
  induction fuel with
  | zero => intro st; rfl
  | succ n ih =>
    intro st
    cases hoc : oracle (st.attempt + 1) with
    | exn m =>
      simp only [monitorGo, hoc, monitor_body]
      by_cases hle : cfg.max_retries ≤ st.attempt + 1
      · simp only [if_pos hle]
      · simp only [if_neg hle]
        exact ih _
    | content c o w =>
      simp only [monitorGo, hoc, monitor_body, calc_backoff_eq_zero, lt_irrefl,
        if_false, ite_self]
      by_cases hf : (detection_chain cfg c phrase o w).found = true
      · simp only [if_pos hf]
      · simp only [if_neg hf]
        exact ih _

/-- C10: for any configuration whose retry strategy is not
exponential_backoff, calculate_exponential_backoff returns 0 and therefore
no inter-attempt backoff sleep is ever performed by monitor_url, whatever
the per-attempt outcomes are. -/
theorem non_exponential_strategy_no_backoff (cfg : ResilienceConfig) (k : ℕ)
    (_h : cfg.retry_strategy ≠ RetryStrategy.exponential_backoff) :
    calculate_exponential_backoff cfg k = 0 ∧
    ∀ (phrase : String) (oracle : ℕ → AttemptOutcome),
      (monitor_url cfg phrase oracle).sleeps = [] :=
  ⟨calc_backoff_eq_zero cfg k,
   fun phrase oracle => monitorGo_sleeps_unchanged cfg phrase oracle _ _⟩

/-- The default configuration with the linear retry strategy. -/
def linearResilience : ResilienceConfig :=
  { defaultResilience with retry_strategy := .linear }

/-- C10 witness: under the linear strategy with base 1 and cap 5 configured,
the delay at attempt 2 is 0 and a run whose attempts all raise performs no
backoff sleeps. -/
theorem non_exponential_strategy_no_backoff_witness :
    linearResilience.retry_strategy ≠ RetryStrategy.exponential_backoff ∧
    calculate_exponential_backoff linearResilience 2 = 0 ∧
    (monitor_url linearResilience "p" (fun _ => AttemptOutcome.exn "e")).sleeps = [] :=
  ⟨by decide,
   (non_exponential_strategy_no_backoff linearResilience 2 (by decide)).1,
   (non_exponential_strategy_no_backoff linearResilience 2 (by decide)).2 "p"
     (fun _ => AttemptOutcome.exn "e")⟩

/-- With fuzzy, OCR and wayback disabled and every attempt delivering content
that misses the phrase, the loop runs its full fuel, returns not_found, and
leaves the attempt and invocation counters advanced by exactly the fuel and
unchanged respectively. -/
theorem monitorGo_clean_miss (cfg : ResilienceConfig) (phrase : String)
    (oracle : ℕ → AttemptOutcome)
    (hf : cfg.fuzzy_match_enabled = false) (ho : cfg.ocr_enabled = false)
    (hw : cfg.wayback_enabled = false)
    (hor : ∀ k, ∃ c o w, oracle k = .content c o w ∧ pyIn phrase c = false) :
    ∀ (fuel : ℕ) (st : LoopState),
      (monitorGo cfg phrase oracle fuel st).found = false ∧
      (monitorGo cfg phrase oracle fuel st).final_status = "not_found" ∧
      (monitorGo cfg phrase oracle fuel st).attempts = st.attempt + fuel ∧
      (monitorGo cfg phrase oracle fuel st).ocr_invocations = st.ocr_invocations ∧
      (monitorGo cfg phrase oracle fuel st).wayback_invocations = st.wayback_invocations := by
  intro fuel
  induction fuel with
  | zero => intro st; exact ⟨rfl, rfl, rfl, rfl, rfl⟩
  | succ n ih =>
    intro st
    obtain ⟨c, o, w, hoc, hmiss⟩ := hor (st.attempt + 1)
    have hch := detection_chain_all_disabled cfg c phrase o w hf ho hw hmiss
    simp only [monitorGo, hoc, monitor_body, hch, Bool.false_eq_true, if_false,
      Nat.add_zero]
    by_cases hs : (pyTruthyOpt st.last_content &&
        should_retry_based_on_size cfg.size_threshold_percentage c st.last_content) = true
    · simp only [if_pos hs]
      refine ⟨(ih _).1, (ih _).2.1, ?_, (ih _).2.2.2.1, (ih _).2.2.2.2⟩
      rw [(ih _).2.2.1]
      show st.attempt + 1 + n = st.attempt + (n + 1)
      omega
    · simp only [if_neg hs]
      refine ⟨(ih _).1, (ih _).2.1, ?_, (ih _).2.2.2.1, (ih _).2.2.2.2⟩
      rw [(ih _).2.2.1]
      show st.attempt + 1 + n = st.attempt + (n + 1)
      omega

/-- When every attempt raises and the incremented counter has already reached
max_retries, the next iteration returns the failed outcome at that counter. -/
theorem monitorGo_raise_now (cfg : ResilienceConfig) (phrase : String)
    (oracle : ℕ → AttemptOutcome) (hor : ∀ k, ∃ m, oracle k = .exn m) :
    ∀ (fuel : ℕ) (st : LoopState), 0 < fuel → cfg.max_retries ≤ st.attempt + 1 →
      monitorGo cfg phrase oracle fuel st =
        { found := false, final_status := "failed", attempts := st.attempt + 1,
          ocr_invocations := st.ocr_invocations,
          wayback_invocations := st.wayback_invocations, sleeps := st.sleeps } := by
  intro fuel st hpos hle
  cases fuel with
  | zero => omega
  | succ n =>
    obtain ⟨m, hoc⟩ := hor (st.attempt + 1)
    simp only [monitorGo, hoc, monitor_body, if_pos hle]

/-- When every attempt raises and the counter is still strictly below
max_retries, the loop keeps absorbing exceptions until the counter reaches
max_retries and then returns the failed outcome there. -/
theorem monitorGo_all_raise (cfg : ResilienceConfig) (phrase : String)
    (oracle : ℕ → AttemptOutcome) (hor : ∀ k, ∃ m, oracle k = .exn m) :
    ∀ (fuel : ℕ) (st : LoopState),
      st.attempt < cfg.max_retries → cfg.max_retries ≤ st.attempt + fuel →
      monitorGo cfg phrase oracle fuel st =
        { found := false, final_status := "failed", attempts := cfg.max_retries,
          ocr_invocations := st.ocr_invocations,
          wayback_invocations := st.wayback_invocations, sleeps := st.sleeps } := by
  intro fuel
  induction fuel with
  | zero => intro st h1 h2; omega
  | succ n ih =>
    intro st h1 h2
    obtain ⟨m, hoc⟩ := hor (st.attempt + 1)
    by_cases hle : cfg.max_retries ≤ st.attempt + 1
    · have h3 : st.attempt + 1 = cfg.max_retries := by omega
      simp only [monitorGo, hoc, monitor_body, if_pos hle]
      rw [← h3]
    · simp only [monitorGo, hoc, monitor_body, if_neg hle]
      have ha : ({ st with attempt := st.attempt + 1 } : LoopState).attempt <
          cfg.max_retries := by
        show st.attempt + 1 < cfg.max_retries
        omega
      have hb : cfg.max_retries ≤
          ({ st with attempt := st.attempt + 1 } : LoopState).attempt + n := by
        show cfg.max_retries ≤ st.attempt + 1 + n
        omega
      exact ih { st with attempt := st.attempt + 1 } ha hb

/-- The default configuration with every fallback disabled and max_retries 1. -/
def cfgOneRetry : ResilienceConfig :=
  { defaultResilience with
      max_retries := 1, fuzzy_match_enabled := false,
      ocr_enabled := false, wayback_enabled := false }

/-- C2 counterexample: with max_retries = 1 and every attempt raising an
exception, the error outcome surfaces after one attempt - the guard
attempt >= max_retries at line 738 fires on attempt max_retries - not after
the max_retries + 1 = 2 attempts the claim requires for exhaustion. -/
theorem retry_budget_error_counterexample :
    (monitor_url cfgOneRetry "p" (fun _ => AttemptOutcome.exn "boom")).final_status
      = "failed" ∧
    (monitor_url cfgOneRetry "p" (fun _ => AttemptOutcome.exn "boom")).attempts = 1 ∧
    cfgOneRetry.max_retries + 1 = 2 ∧ (1 : ℕ) ≠ 2 :=
  ⟨rfl, rfl, rfl, by decide⟩

/-- C2 (amended): the attempt loop spans attempts 1 through max_retries + 1,
and with fuzzy, OCR and archive fallbacks disabled a phrase absent from
every rendered content yields not_found after exactly max_retries + 1
attempts with zero OCR and zero archive invocations; but when every attempt
raises an unhandled exception the error outcome is returned already after
max(max_retries, 1) attempts - the final loop slot is never used on the
all-exception path. -/
theorem retry_budget_amended (cfg : ResilienceConfig) (phrase : String)
    (oracle : ℕ → AttemptOutcome)
    (hf : cfg.fuzzy_match_enabled = false) (ho : cfg.ocr_enabled = false)
    (hw : cfg.wayback_enabled = false) :
    ((∀ k, ∃ c o w, oracle k = .content c o w ∧ pyIn phrase c = false) →
      (monitor_url cfg phrase oracle).found = false ∧
      (monitor_url cfg phrase oracle).final_status = "not_found" ∧
      (monitor_url cfg phrase oracle).attempts = cfg.max_retries + 1 ∧
      (monitor_url cfg phrase oracle).ocr_invocations = 0 ∧
      (monitor_url cfg phrase oracle).wayback_invocations = 0) ∧
    ((∀ k, ∃ m, oracle k = .exn m) →
      (monitor_url cfg phrase oracle).final_status = "failed" ∧
      (monitor_url cfg phrase oracle).attempts = max cfg.max_retries 1) := by
  constructor
  · intro hor
    obtain ⟨h1, h2, h3, h4, h5⟩ := monitorGo_clean_miss cfg phrase oracle hf ho hw hor
      (cfg.max_retries + 1)
      { attempt := 0, last_content := none, ocr_invocations := 0,
        wayback_invocations := 0, sleeps := [] }
    refine ⟨h1, h2, ?_, h4, h5⟩
    rw [monitor_url, h3]
    show 0 + (cfg.max_retries + 1) = cfg.max_retries + 1
    omega
  · intro hor
    rcases Nat.eq_zero_or_pos cfg.max_retries with hmr | hmr
    · have h := monitorGo_raise_now cfg phrase oracle hor (cfg.max_retries + 1)
        { attempt := 0, last_content := none, ocr_invocations := 0,
          wayback_invocations := 0, sleeps := [] } (by omega) (by omega)
      rw [monitor_url, h]
      refine ⟨rfl, ?_⟩
      show 0 + 1 = max cfg.max_retries 1
      omega
    · have h := monitorGo_all_raise cfg phrase oracle hor (cfg.max_retries + 1)
        { attempt := 0, last_content := none, ocr_invocations := 0,
          wayback_invocations := 0, sleeps := [] } hmr (by omega)
      rw [monitor_url, h]
      refine ⟨rfl, ?_⟩
      show cfg.max_retries = max cfg.max_retries 1
      omega

/-- The default configuration with every fallback disabled and max_retries 2. -/
def cfgNoFallbacks : ResilienceConfig :=
  { defaultResilience with
      max_retries := 2, fuzzy_match_enabled := false,
      ocr_enabled := false, wayback_enabled := false }

/-- C2 witness for the amended claim: an always-missing content run performs
exactly 3 = max_retries + 1 attempts with zero OCR invocations and returns
not_found, while an always-raising run returns failed after
max(max_retries, 1) attempts. -/
theorem retry_budget_amended_witness :
    cfgNoFallbacks.fuzzy_match_enabled = false ∧
    cfgNoFallbacks.ocr_enabled = false ∧
    cfgNoFallbacks.wayback_enabled = false ∧
    (monitor_url cfgNoFallbacks "needle"
      (fun _ => AttemptOutcome.content "haystack" "" none)).attempts = 3 ∧
    (monitor_url cfgNoFallbacks "needle"
      (fun _ => AttemptOutcome.content "haystack" "" none)).final_status = "not_found" ∧
    (monitor_url cfgNoFallbacks "needle"
      (fun _ => AttemptOutcome.content "haystack" "" none)).ocr_invocations = 0 ∧
    (monitor_url cfgNoFallbacks "err"
      (fun _ => AttemptOutcome.exn "boom")).attempts = max cfgNoFallbacks.max_retries 1 :=
  ⟨rfl, rfl, rfl,
   ((retry_budget_amended cfgNoFallbacks "needle"
      (fun _ => AttemptOutcome.content "haystack" "" none) rfl rfl rfl).1
      (fun _ => ⟨"haystack", "", none, rfl, by decide⟩)).2.2.1,
   ((retry_budget_amended cfgNoFallbacks "needle"
      (fun _ => AttemptOutcome.content "haystack" "" none) rfl rfl rfl).1
      (fun _ => ⟨"haystack", "", none, rfl, by decide⟩)).2.1,
   ((retry_budget_amended cfgNoFallbacks "needle"
      (fun _ => AttemptOutcome.content "haystack" "" none) rfl rfl rfl).1
      (fun _ => ⟨"haystack", "", none, rfl, by decide⟩)).2.2.2.1,
   ((retry_budget_amended cfgNoFallbacks "err"
      (fun _ => AttemptOutcome.exn "boom") rfl rfl rfl).2
      (fun _ => ⟨"boom", rfl⟩)).2⟩

end Watcher
